import Mathlib

/-!
Verification of the pwsh-mcp server (`powershell_server.py`,
`windows_terminal_controller.py`) against its natural-language
specification.  The Python code is shallowly embedded: JSON values become
an inductive type, each server method becomes a total Lean function,
Python exceptions become an explicit `Except` error type, and every
external effect (process inspection, window queries, input injection,
clipboard, screen capture, filesystem) is abstracted as a field of an
environment record `Env`.  Calls into the session state machine and the
tool bodies are recorded in an explicit event trace so that claims of the
form "X is never invoked" are statable.
-/

namespace PwshMcp

/-- Embedded JSON / Python value (the payloads moved through the server).
Python `None` is `null`; Python `bool` is kept distinct from `int` because
JSON distinguishes them (Python-level `isinstance(_, int)` subtleties are
modelled explicitly below). -/
inductive JVal where
  | null
  | bool (b : Bool)
  | int (n : Int)
  | str (s : String)
  | arr (xs : List JVal)
  | obj (fields : List (String × JVal))
deriving Repr, Inhabited

/-- A JSON object: ordered key/value pairs (Python dicts preserve
insertion order). -/
abbrev JObj := List (String × JVal)

/-- Python truthiness (`bool(v)`) for embedded values. -/
def JVal.truthy : JVal → Bool
  | .null => false
  | .bool b => b
  | .int n => n != 0
  | .str s => s != ""
  | .arr xs => !xs.isEmpty
  | .obj fs => !fs.isEmpty

/-- `v == "s"` in Python for an embedded value: only a string compares
equal to a string. -/
def JVal.eqStr : JVal → String → Bool
  | .str s, t => s == t
  | _, _ => false

/-- `v is None` in Python. -/
def JVal.isNone : JVal → Bool
  | .null => true
  | _ => false

/-- Python type name of a value (used in approximated exception texts;
no claim depends on these strings). -/
def JVal.typeName : JVal → String
  | .null => "NoneType"
  | .bool _ => "bool"
  | .int _ => "int"
  | .str _ => "str"
  | .arr _ => "list"
  | .obj _ => "dict"

/-- The single-quote character, kept out of string literals. -/
def squote : String := String.mk [Char.ofNat 39]

mutual
/-- Python `repr` of a value (scalar cases are exact; string quoting uses
single quotes without escape handling — no proved statement depends on
the repr of a container or of a string needing escapes). -/
def pyRepr : JVal → String
  | .null => "None"
  | .bool true => "True"
  | .bool false => "False"
  | .int n => toString n
  | .str s => squote ++ s ++ squote
  | .arr xs => "[" ++ pyReprList xs ++ "]"
  | .obj fs => "\x7b" ++ pyReprObj fs ++ "\x7d"

/-- `repr` of list elements, comma separated. -/
def pyReprList : List JVal → String
  | [] => ""
  | [x] => pyRepr x
  | x :: y :: xs => pyRepr x ++ ", " ++ pyReprList (y :: xs)

/-- `repr` of dict items, comma separated. -/
def pyReprObj : List (String × JVal) → String
  | [] => ""
  | [(k, v)] => squote ++ k ++ squote ++ ": " ++ pyRepr v
  | (k, v) :: p :: xs =>
      squote ++ k ++ squote ++ ": " ++ pyRepr v ++ ", " ++ pyReprObj (p :: xs)
end

/-- Python `str(v)` (used by f-string interpolation): identity on
strings, `repr`-like elsewhere. -/
def pyStr : JVal → String
  | .str s => s
  | v => pyRepr v

/-- Characters stripped by Python `str.strip()` / tested by
`str.isspace()`: ASCII whitespace plus the Unicode space separators. -/
def pyIsSpace (c : Char) : Bool :=
  let n := c.toNat
  n == 0x20 || n == 0x9 || n == 0xa || n == 0xd || n == 0xb || n == 0xc ||
  (0x1c ≤ n && n ≤ 0x1f) || n == 0x85 || n == 0xa0 || n == 0x1680 ||
  (0x2000 ≤ n && n ≤ 0x200a) || n == 0x2028 || n == 0x2029 || n == 0x202f ||
  n == 0x205f || n == 0x3000

/-- Python `str.strip()` on a character list. -/
def pyStripL (cs : List Char) : List Char :=
  (((cs.dropWhile pyIsSpace).reverse).dropWhile pyIsSpace).reverse

/-- Python `str.strip()`. -/
def pyStrip (s : String) : String := String.mk (pyStripL s.data)

/-- Python `str.split("\n")` on a character list: splits at every newline,
keeping empty pieces; `splitNL [] = [[]]` just as `"".split("\n") == [""]`. -/
def splitNL : List Char → List (List Char)
  | [] => [[]]
  | c :: cs =>
      if c = '\n' then [] :: splitNL cs
      else
        match splitNL cs with
        | [] => [[c]]
        | l :: ls => (c :: l) :: ls

/-- `[line.strip() for line in script.split("\n") if line.strip()]`
(powershell_server.py line 242): the stripped non-blank lines of a script. -/
def scriptLines (s : String) : List (List Char) :=
  ((splitNL s.data).map pyStripL).filter (fun l => !l.isEmpty)

/-- Python `str.capitalize()`: first character upper-cased, the rest
lower-cased. -/
def pyCapitalize (s : String) : String :=
  match s.data with
  | [] => ""
  | c :: cs => String.mk (c.toUpper :: cs.map Char.toLower)

/-! ## Constants (powershell_server.py lines 16-23, controller line 230) -/

/-- `DEFAULT_TIMEOUT = 30`. -/
def DEFAULT_TIMEOUT : Int := 30

/-- `DEFAULT_RETRY_ATTEMPTS = 10`. -/
def DEFAULT_RETRY_ATTEMPTS : Nat := 10

/-- `DEFAULT_RETRY_DELAY = 0.5` seconds, expressed in milliseconds (the
delay itself has no observable effect in the embedding beyond pacing). -/
def DEFAULT_RETRY_DELAY_MS : Nat := 500

/-- `MULTILINE_EXECUTION_DELAY = 2` (seconds). -/
def MULTILINE_EXECUTION_DELAY : Nat := 2

/-- `SINGLELINE_EXECUTION_DELAY = 1` (seconds). -/
def SINGLELINE_EXECUTION_DELAY : Nat := 1

/-- `PROTOCOL_VERSION = "2024-11-05"`. -/
def PROTOCOL_VERSION : String := "2024-11-05"

/-- `SERVER_VERSION = "1.1.0"`. -/
def SERVER_VERSION : String := "1.1.0"

/-- `title_bar_height = 35` (windows_terminal_controller.py line 230). -/
def TITLE_BAR_HEIGHT : Int := 35

/-! ## Exceptions (powershell_server.py lines 43-58)

`TerminalNotAvailableError` and `ScriptExecutionError` are subclasses of
`PowerShellMCPError`; `pyError` stands for any other Python exception
(AttributeError, TypeError, OSError, ...), whose message texts are
approximated since no proved statement depends on them. -/
inductive PyExc where
  | powerShellMCPError (m : String)
  | terminalNotAvailableError (m : String)
  | scriptExecutionError (m : String)
  | pyError (m : String)
deriving Repr, DecidableEq

/-- `str(e)`: the exception message. -/
def PyExc.msg : PyExc → String
  | .powerShellMCPError m => m
  | .terminalNotAvailableError m => m
  | .scriptExecutionError m => m
  | .pyError m => m

/-- `isinstance(e, PowerShellMCPError)`. -/
def PyExc.isPowerShellMCPError : PyExc → Bool
  | .pyError _ => false
  | _ => true

/-! ## Observable events

The embedding records, per request, which side-effecting phases ran:
entering the argument validator, entering a tool body, invoking the
session state machine (`_ensure_terminal_available`), launching the
terminal, each window-discovery/focus attempt of the retry loop, and
pasting content into the terminal. -/
inductive Event where
  | validateArgs (tool : String)
  | toolBody (tool : String)
  | ensureTerminal
  | launchTerminal
  | findAttempt (i : Nat)
  | pasteContent
deriving Repr, DecidableEq

/-- Window rectangle returned by `find_terminal_window`
(windows_terminal_controller.py line 144). -/
structure WindowRect where
  left : Int
  top : Int
  width : Int
  height : Int
deriving Repr, DecidableEq

/-- Screen region captured by `ImageGrab.grab(bbox=(x1, y1, x2, y2))`;
the resulting image has size `(x2 - x1, y2 - y1)`. -/
structure BBox where
  x1 : Int
  y1 : Int
  x2 : Int
  y2 : Int
deriving Repr, DecidableEq

/-- Environment of external collaborators (OS processes, windows, input
injection, clipboard, screen, filesystem).  Each field is the outcome the
outside world would give to the corresponding call; the per-attempt
window results are indexed by attempt number because the window may
appear, move or vanish between polls. -/
structure Env where
  /-- `terminal_controller.is_terminal_running()` at the initial check. -/
  is_terminal_running : Bool
  /-- `find_terminal_window()` at the initial check. -/
  initial_find : Option WindowRect
  /-- `focus_terminal()` at the initial check. -/
  initial_focus : Bool
  /-- `launch_terminal()` outcome. -/
  launch_ok : Bool
  /-- `find_terminal_window()` on retry attempt `i`. -/
  retry_find : Nat → Option WindowRect
  /-- `focus_terminal()` on retry attempt `i`. -/
  retry_focus : Nat → Bool
  /-- `paste_content(script, execute=True)` outcome. -/
  paste_ok : Bool
  /-- `pyperclip.paste()`: clipboard text, or the raised exception text. -/
  clipboard_read : Except String String
  /-- `find_terminal_window()` inside `capture_terminal_output`. -/
  capture_find : Option WindowRect
  /-- `os.path.abspath`. -/
  abspath : String → String
  /-- the generated timestamped temp path. -/
  temp_path : String
  /-- `os.makedirs` + `screenshot.save` + `os.path.getsize`: the saved
  file size, or the raised exception text. -/
  save_result : Except String Int

/-! ## WindowsTerminalController.capture_terminal_output
(windows_terminal_controller.py lines 215-246) -/

/-- Geometry part of `capture_terminal_output`: from the freshly queried
window coordinates, optionally excludes the title bar (`top += 35`,
`height -= 35`), rejects non-positive dimensions by returning `none`, and
otherwise captures `bbox=(left, top, left + width, top + height)`. -/
def capture_terminal_output (window_coords : Option WindowRect)
    (exclude_titlebar : Bool) : Option BBox :=
  match window_coords with
  | none => none
  | some w =>
      let top := if exclude_titlebar then w.top + TITLE_BAR_HEIGHT else w.top
      let height := if exclude_titlebar then w.height - TITLE_BAR_HEIGHT else w.height
      if w.width ≤ 0 || height ≤ 0 then none
      else some ⟨w.left, top, w.left + w.width, top + height⟩

/-! ## ToolResult (powershell_server.py lines 26-40) -/

/-- `ToolResult`: standardized tool execution result. -/
structure ToolResult where
  success : Bool
  data : Option JObj := none
  error : Option String := none
deriving Repr

/-- `ToolResult.to_dict`: `{"success": ...}` updated with `data` when
truthy, plus `"error"` when not `None`.  (At every call site the data
keys are disjoint from `"success"`/`"error"`, so `dict.update` is list
append.) -/
def ToolResult.to_dict (r : ToolResult) : JObj :=
  let base : JObj := [("success", JVal.bool r.success)]
  let withData :=
    match r.data with
    | some d => if d.isEmpty then base else base ++ d
    | none => base
  match r.error with
  | some e => withData ++ [("error", JVal.str e)]
  | none => withData

/-! ## json.dumps(result, indent=2) (powershell_server.py line 196) -/

/-- Lower-case hexadecimal digit. -/
def hexDigitChar (n : Nat) : Char :=
  if n < 10 then Char.ofNat (48 + n) else Char.ofNat (87 + n)

/-- `\uXXXX` escape of a 16-bit code unit. -/
def uEscape (n : Nat) : String :=
  "\\u" ++ String.mk [hexDigitChar (n / 4096 % 16), hexDigitChar (n / 256 % 16),
    hexDigitChar (n / 16 % 16), hexDigitChar (n % 16)]

/-- JSON escaping of one character, `ensure_ascii=True` style. -/
def jsonEscapeChar (c : Char) : String :=
  let n := c.toNat
  if n = 34 then "\\\""
  else if n = 92 then "\\\\"
  else if n = 10 then "\\n"
  else if n = 9 then "\\t"
  else if n = 13 then "\\r"
  else if n = 8 then "\\b"
  else if n = 12 then "\\f"
  else if n < 32 then uEscape n
  else if n < 127 then String.mk [c]
  else if n < 65536 then uEscape n
  else uEscape (55296 + (n - 65536) / 1024) ++ uEscape (56320 + (n - 65536) % 1024)

/-- JSON escaping of a string. -/
def jsonEscape (s : String) : String := String.join (s.data.map jsonEscapeChar)

/-- `n` spaces. -/
def nspaces (n : Nat) : String := String.mk (List.replicate n ' ')

mutual
/-- `json.dumps(v, indent=2)` at nesting level `lvl`. -/
def jsonDumps : JVal → Nat → String
  | .null, _ => "null"
  | .bool true, _ => "true"
  | .bool false, _ => "false"
  | .int n, _ => toString n
  | .str s, _ => "\"" ++ jsonEscape s ++ "\""
  | .arr [], _ => "[]"
  | .arr (x :: xs), lvl =>
      "[\n" ++ jsonDumpsItems (x :: xs) (lvl + 1) ++ "\n" ++ nspaces (2 * lvl) ++ "]"
  | .obj [], _ => "\x7b\x7d"
  | .obj (p :: ps), lvl =>
      "\x7b\n" ++ jsonDumpsFields (p :: ps) (lvl + 1) ++ "\n" ++ nspaces (2 * lvl) ++ "\x7d"

/-- Array items, one per line. -/
def jsonDumpsItems : List JVal → Nat → String
  | [], _ => ""
  | [x], lvl => nspaces (2 * lvl) ++ jsonDumps x lvl
  | x :: y :: xs, lvl =>
      nspaces (2 * lvl) ++ jsonDumps x lvl ++ ",\n" ++ jsonDumpsItems (y :: xs) lvl

/-- Object fields, one per line. -/
def jsonDumpsFields : List (String × JVal) → Nat → String
  | [], _ => ""
  | [(k, v)], lvl => nspaces (2 * lvl) ++ "\"" ++ jsonEscape k ++ "\": " ++ jsonDumps v lvl
  | (k, v) :: p :: ps, lvl =>
      nspaces (2 * lvl) ++ "\"" ++ jsonEscape k ++ "\": " ++ jsonDumps v lvl ++ ",\n" ++
        jsonDumpsFields (p :: ps) lvl
end

/-! ## Tool registry (`_define_tools`, powershell_server.py lines 70-118) -/

/-- Definition of `execute_pwsh_script`. -/
def executePwshScriptDef : JVal := .obj [
  ("name", .str "execute_pwsh_script"),
  ("description", .str "Execute PowerShell script by pasting into terminal (supports both single-line and multi-line scripts)"),
  ("inputSchema", .obj [
    ("type", .str "object"),
    ("properties", .obj [
      ("script", .obj [
        ("type", .str "string"),
        ("description", .str "PowerShell script to execute (single-line or multi-line)"),
        ("minLength", .int 1)]),
      ("timeout", .obj [
        ("type", .str "integer"),
        ("description", .str "Timeout in seconds (default: 30)"),
        ("default", .int 30),
        ("minimum", .int 1),
        ("maximum", .int 300)])]),
    ("required", .arr [.str "script"])])]

/-- Definition of `get_clipboard`. -/
def getClipboardDef : JVal := .obj [
  ("name", .str "get_clipboard"),
  ("description", .str "Get current clipboard content"),
  ("inputSchema", .obj [("type", .str "object"), ("properties", .obj [])])]

/-- Definition of `capture_pwsh_response`. -/
def capturePwshResponseDef : JVal := .obj [
  ("name", .str "capture_pwsh_response"),
  ("description", .str "Capture Windows PowerShell terminal output as screenshot"),
  ("inputSchema", .obj [
    ("type", .str "object"),
    ("properties", .obj [
      ("save_path", .obj [
        ("type", .str "string"),
        ("description", .str "Optional path to save screenshot"),
        ("default", .null)]),
      ("exclude_titlebar", .obj [
        ("type", .str "boolean"),
        ("description", .str "Exclude window title bar from capture (default: true)"),
        ("default", .bool true)])])])]

/-- `self.tools`: the registry built once at startup (insertion order
preserved, as for a Python dict). -/
def tools : JObj := [
  ("execute_pwsh_script", executePwshScriptDef),
  ("get_clipboard", getClipboardDef),
  ("capture_pwsh_response", capturePwshResponseDef)]

/-! ## Python dict / value helpers used by the dispatcher -/

/-- `v.get(k, dflt)` on a value that may not be a dict: raises
AttributeError when it is not. -/
def pyObjGetD (v : JVal) (k : String) (dflt : JVal) : Except PyExc JVal :=
  match v with
  | .obj fs => .ok ((fs.lookup k).getD dflt)
  | w => .error (.pyError ("AttributeError: " ++ w.typeName ++ " object has no attribute get"))

mutual
/-- Python `==` on embedded values (structural; the Python `True == 1`
cross-type equality is not modelled — it is never exercised, since the
only membership tests performed on lists use the string "script"). -/
def jvalBeq : JVal → JVal → Bool
  | .null, .null => true
  | .bool a, .bool b => a == b
  | .int a, .int b => a == b
  | .str a, .str b => a == b
  | .arr a, .arr b => jvalListBeq a b
  | .obj a, .obj b => jvalObjBeq a b
  | _, _ => false

/-- Elementwise `==` on lists. -/
def jvalListBeq : List JVal → List JVal → Bool
  | [], [] => true
  | a :: l, b :: m => jvalBeq a b && jvalListBeq l m
  | _, _ => false

/-- Elementwise `==` on dict items. -/
def jvalObjBeq : List (String × JVal) → List (String × JVal) → Bool
  | [], [] => true
  | (k, a) :: l, (j, b) :: m => k == j && jvalBeq a b && jvalObjBeq l m
  | _, _ => false
end

/-- Substring containment on character lists (Python `t in s` for
strings). -/
def substrOf (t : List Char) : List Char → Bool
  | [] => t.isEmpty
  | c :: cs => t.isPrefixOf (c :: cs) || substrOf t cs

/-- Python `x in container`: key test for dicts, substring test for
strings, membership for lists; TypeError otherwise. -/
def pyContains (container x : JVal) : Except PyExc Bool :=
  match container with
  | .obj fs =>
      .ok (match x with
        | .str k => (fs.lookup k).isSome
        | _ => false)
  | .str s =>
      match x with
      | .str t => .ok (substrOf t.data s.data)
      | w => .error (.pyError ("TypeError: in <string> requires string as left operand, not " ++ w.typeName))
  | .arr xs => .ok (xs.any (jvalBeq x))
  | w => .error (.pyError ("TypeError: argument of type " ++ w.typeName ++ " is not iterable"))

/-- `isinstance(v, int)`: Python bool is a subclass of int, so booleans
pass this test. -/
def pyIsInstanceInt : JVal → Bool
  | .int _ => true
  | .bool _ => true
  | _ => false

/-- Numeric value of a Python int-like value (`True` is 1, `False` is 0). -/
def pyIntVal : JVal → Int
  | .int n => n
  | .bool b => if b then 1 else 0
  | _ => 0

/-! ## RequestValidator (`_validate_tool_arguments`, lines 206-227) -/

/-- The required-field loop (lines 213-215). -/
def checkRequired (argumentsJ : JVal) : List JVal → Except PyExc (Option String)
  | [] => .ok none
  | f :: rest =>
      match pyContains argumentsJ f with
      | .error e => .error e
      | .ok true => checkRequired argumentsJ rest
      | .ok false => .ok (some ("Missing required argument: " ++ pyStr f))

/-- `_validate_tool_arguments`: required fields first (read from the
registered schema), then for `execute_pwsh_script` the non-blank script
check and the timeout type/range check.  Returns `some message` on the
first violated constraint, `none` when valid; raises (`.error`) exactly
where the Python would (non-dict arguments, truthy non-string script). -/
def validate_tool_arguments (default_timeout : JVal) (tool_name : String)
    (argumentsJ : JVal) : Except PyExc (Option String) :=
  let tool_schema :=
    match tools.lookup tool_name with
    | some (.obj fs) => (fs.lookup "inputSchema").getD (.obj [])
    | _ => .obj []
  let required_fields : List JVal :=
    match tool_schema with
    | .obj fs =>
        match (fs.lookup "required").getD (.arr []) with
        | .arr xs => xs
        | _ => []
    | _ => []
  match checkRequired argumentsJ required_fields with
  | .error e => .error e
  | .ok (some m) => .ok (some m)
  | .ok none =>
    if tool_name == "execute_pwsh_script" then
      match pyObjGetD argumentsJ "script" (.str "") with
      | .error e => .error e
      | .ok script =>
        if !script.truthy then .ok (some "Script cannot be empty")
        else
          match script with
          | .str s =>
            if pyStrip s == "" then .ok (some "Script cannot be empty")
            else
              match pyObjGetD argumentsJ "timeout" default_timeout with
              | .error e => .error e
              | .ok timeout =>
                if !pyIsInstanceInt timeout || pyIntVal timeout < 1 || pyIntVal timeout > 300 then
                  .ok (some "Timeout must be an integer between 1 and 300 seconds")
                else .ok none
          | v => .error (.pyError ("AttributeError: " ++ v.typeName ++ " object has no attribute strip"))
    else .ok none

/-! ## SessionStateMachine (`_ensure_terminal_available`, lines 285-305) -/

/-- The bounded retry loop (lines 296-305): at each attempt, query the
window; on discovery, attempt focus; on focused, return Ready; otherwise
sleep `DEFAULT_RETRY_DELAY` and try again; after the fuel (the fixed
attempt budget) is exhausted, raise `TerminalNotAvailableError`. -/
def ensureRetry (env : Env) : Nat → Nat → Except PyExc Unit × List Event
  | 0, _ => (.error (.terminalNotAvailableError "Terminal window not available after multiple attempts"), [])
  | fuel + 1, attempt =>
      let ev := Event.findAttempt attempt
      match env.retry_find attempt with
      | some _ =>
          if env.retry_focus attempt then (.ok (), [ev])
          else
            let (r, evs) := ensureRetry env fuel (attempt + 1)
            (r, ev :: evs)
      | none =>
          let (r, evs) := ensureRetry env fuel (attempt + 1)
          (r, ev :: evs)

/-- `_ensure_terminal_available`: fast path when a terminal is already
running, discoverable and focusable; otherwise launch and poll with the
fixed retry budget `DEFAULT_RETRY_ATTEMPTS`. -/
def ensure_terminal_available (env : Env) : Except PyExc Unit × List Event :=
  if env.is_terminal_running && env.initial_find.isSome && env.initial_focus then
    (.ok (), [])
  else if !env.launch_ok then
    (.error (.terminalNotAvailableError "Failed to launch Windows Terminal"), [.launchTerminal])
  else
    let (r, evs) := ensureRetry env DEFAULT_RETRY_ATTEMPTS 0
    (r, Event.launchTerminal :: evs)

/-! ## ScriptExecutionOrchestrator (`execute_pwsh_script`, lines 234-283) -/

/-- `execute_pwsh_script`: rejects blank scripts, classifies the script
by its non-blank line count, ensures terminal readiness, pastes the
content, waits the settle delay (unobservable here) and builds the
success payload.  `PowerShellMCPError`s are re-raised unchanged; the
attribute error of a truthy non-string script is re-raised as
`ScriptExecutionError` by the generic handler (line 283).  The
`self.terminal_controller.timeout = timeout` assignment (line 252) has no
further observable effect in the modelled paths. -/
def execute_pwsh_script (env : Env) (script timeout : JVal) :
    Except PyExc JObj × List Event :=
  let ev0 := Event.toolBody "execute_pwsh_script"
  if !script.truthy then
    (.error (.scriptExecutionError "Empty script provided"), [ev0])
  else
    match script with
    | .str s =>
      if pyStrip s == "" then
        (.error (.scriptExecutionError "Empty script provided"), [ev0])
      else
        let lines := scriptLines s
        let is_multiline : Bool := decide (1 < lines.length)
        let script_type := if is_multiline then "multi-line script" else "single command"
        match ensure_terminal_available env with
        | (.error e, evs) => (.error e, ev0 :: Event.ensureTerminal :: evs)
        | (.ok _, evs) =>
          if !env.paste_ok then
            (.error (.scriptExecutionError ("Failed to paste " ++ script_type)),
              ev0 :: Event.ensureTerminal :: (evs ++ [Event.pasteContent]))
          else
            (.ok (ToolResult.to_dict
              { success := true
                data := some [
                  ("lines_count", .int lines.length),
                  ("is_multiline", .bool is_multiline),
                  ("script_type", .str script_type),
                  ("timeout_used", timeout),
                  ("message", .str (pyCapitalize script_type ++ " with " ++
                    toString lines.length ++ " line" ++
                    (if lines.length != 1 then "s" else "") ++ " executed successfully"))] }),
              ev0 :: Event.ensureTerminal :: (evs ++ [Event.pasteContent]))
    | v =>
      (.error (.scriptExecutionError ("Script execution failed: AttributeError: " ++
        v.typeName ++ " object has no attribute strip")), [ev0])

/-! ## Clipboard and screenshot tools (lines 307-383) -/

/-- `get_clipboard` (lines 307-329): reads the clipboard; on an
exception from the clipboard capability, reports a failed `ToolResult`
rather than raising. -/
def get_clipboard (env : Env) : JObj × List Event :=
  match env.clipboard_read with
  | .ok content =>
      let n : Nat := content.length
      (ToolResult.to_dict
        { success := true
          data := some [
            ("content", .str content),
            ("length", .int n),
            ("is_empty", .bool (decide (n = 0))),
            ("message", .str ("Clipboard content retrieved successfully (" ++
              toString n ++ " characters)"))] },
        [Event.toolBody "get_clipboard"])
  | .error m =>
      (ToolResult.to_dict
        { success := false, error := some ("Failed to get clipboard content: " ++ m) },
        [Event.toolBody "get_clipboard"])

/-- `_get_screenshot_path` (lines 372-383): caller-supplied path
normalized to a `.png` extension and made absolute, or the generated
timestamped temp path; the error value is the raised exception text
(truthy non-string `save_path`). -/
def get_screenshot_path (env : Env) (save_path : JVal) : Except String String :=
  if save_path.truthy then
    match save_path with
    | .str p =>
        let p2 := if p.toLower.endsWith ".png" then p else p ++ ".png"
        .ok (env.abspath p2)
    | v => .error ("AttributeError: " ++ v.typeName ++ " object has no attribute lower")
  else .ok env.temp_path

/-- `capture_pwsh_response` (lines 331-370): a `None` screenshot (window
not found or invalid geometry) raises `PowerShellMCPError`, which is
re-raised by the first `except` clause; any other exception (path
handling, saving) is converted to a failed `ToolResult`. -/
def capture_pwsh_response (env : Env) (save_path exclude_titlebar : JVal) :
    Except PyExc JObj × List Event :=
  let evs := [Event.toolBody "capture_pwsh_response"]
  match capture_terminal_output env.capture_find exclude_titlebar.truthy with
  | none =>
      (.error (.powerShellMCPError
        "Failed to capture terminal window - window may not be visible or accessible"), evs)
  | some shot =>
      match get_screenshot_path env save_path with
      | .error m =>
          (.ok (ToolResult.to_dict
            { success := false, error := some ("Screenshot capture failed: " ++ m) }), evs)
      | .ok final_path =>
          match env.save_result with
          | .error m =>
              (.ok (ToolResult.to_dict
                { success := false, error := some ("Screenshot capture failed: " ++ m) }), evs)
          | .ok fsize =>
              (.ok (ToolResult.to_dict
                { success := true
                  data := some [
                    ("saved_to", .str final_path),
                    ("size", .obj [("width", .int (shot.x2 - shot.x1)),
                                   ("height", .int (shot.y2 - shot.y1))]),
                    ("file_size_bytes", .int fsize),
                    ("exclude_titlebar", exclude_titlebar),
                    ("custom_path", .bool (!save_path.isNone)),
                    ("message", .str ("Screenshot saved to " ++
                      (if save_path.truthy then "specified path" else "temp directory")))] }), evs)

/-! ## ProtocolDispatcher (`handle_request` and `_handle_tools_call`) -/

/-- `_create_error_response` (lines 229-232). -/
def create_error_response (request_id : JVal) (code : Int) (message : String) : JObj :=
  [("jsonrpc", .str "2.0"), ("id", request_id),
   ("error", .obj [("code", .int code), ("message", .str message)])]

/-- `_handle_initialize` (lines 143-154). -/
def handle_init (request_id : JVal) : JObj :=
  [("jsonrpc", .str "2.0"), ("id", request_id),
   ("result", .obj [
      ("protocolVersion", .str PROTOCOL_VERSION),
      ("capabilities", .obj [("tools", .obj [])]),
      ("serverInfo", .obj [
        ("name", .str "powershell-mcp-server"),
        ("version", .str SERVER_VERSION)])])]

/-- `_handle_tools_list` (lines 156-159): `list(self.tools.values())`. -/
def handle_tools_list (request_id : JVal) : JObj :=
  [("jsonrpc", .str "2.0"), ("id", request_id),
   ("result", .obj [("tools", .arr (tools.map Prod.snd))])]

/-- The two `except` clauses of `_handle_tools_call` (lines 199-204):
a `PowerShellMCPError` becomes `-32603` with its own message, any other
exception becomes `-32603` with a "Tool execution failed: " prefix. -/
def catchToolExc (request_id : JVal) (e : PyExc) : JObj :=
  if e.isPowerShellMCPError then create_error_response request_id (-32603) e.msg
  else create_error_response request_id (-32603) ("Tool execution failed: " ++ e.msg)

/-- Result shaping of `_handle_tools_call` (lines 193-197): the tool
result dict is serialized with `json.dumps(result, indent=2)` into a
single text content item; raised exceptions go through the `except`
clauses. -/
def wrapToolOutcome (request_id : JVal) (x : Except PyExc JObj × List Event) :
    JObj × List Event :=
  match x with
  | (.ok result, evs) =>
      ([("jsonrpc", .str "2.0"), ("id", request_id),
        ("result", .obj [("content", .arr [.obj [
          ("type", .str "text"),
          ("text", .str (jsonDumps (.obj result) 0))]])])], evs)
  | (.error e, evs) => (catchToolExc request_id e, evs)

/-- The `try` block of `_handle_tools_call` (lines 174-197), entered once
the tool name is known to be registered: validate, then dispatch on the
tool name; the final `-32601` "Tool not implemented" branch (line 190) is
kept although unreachable for registered names. -/
def tools_call_try (env : Env) (default_timeout : Int) (request_id : JVal)
    (name : String) (argumentsJ : JVal) : JObj × List Event :=
  match validate_tool_arguments (.int default_timeout) name argumentsJ with
  | .error e => (catchToolExc request_id e, [Event.validateArgs name])
  | .ok (some m) => (create_error_response request_id (-32602) m, [Event.validateArgs name])
  | .ok none =>
    if name == "execute_pwsh_script" then
      let out :=
        match pyObjGetD argumentsJ "script" (.str ""),
              pyObjGetD argumentsJ "timeout" (.int default_timeout) with
        | .ok s, .ok t => execute_pwsh_script env s t
        | .error e, _ => (.error e, [])
        | _, .error e => (.error e, [])
      wrapToolOutcome request_id (out.1, Event.validateArgs name :: out.2)
    else if name == "get_clipboard" then
      let out := get_clipboard env
      wrapToolOutcome request_id (.ok out.1, Event.validateArgs name :: out.2)
    else if name == "capture_pwsh_response" then
      let out :=
        match pyObjGetD argumentsJ "save_path" .null,
              pyObjGetD argumentsJ "exclude_titlebar" (.bool true) with
        | .ok sp, .ok ex => capture_pwsh_response env sp ex
        | .error e, _ => (.error e, [])
        | _, .error e => (.error e, [])
      wrapToolOutcome request_id (out.1, Event.validateArgs name :: out.2)
    else
      (create_error_response request_id (-32601) ("Tool not implemented: " ++ name),
        [Event.validateArgs name])

/-- `_handle_tools_call` (lines 161-204): reads `params.get("name")` and
`params.get("arguments", {})` (raising when `params` is not a dict — the
exception propagates to `handle_request`), rejects a falsy tool name with
`-32602` "Tool name is required", an unregistered one with `-32601`, and
otherwise runs the `try` block. -/
def handle_tools_call (env : Env) (default_timeout : Int) (request_id : JVal)
    (params : JVal) : Except PyExc (JObj × List Event) :=
  match pyObjGetD params "name" .null with
  | .error e => .error e
  | .ok tool_name =>
    match pyObjGetD params "arguments" (.obj []) with
    | .error e => .error e
    | .ok argumentsJ =>
      if !tool_name.truthy then
        .ok (create_error_response request_id (-32602) "Tool name is required", [])
      else
        match tool_name with
        | .str name =>
          if (tools.lookup name).isSome then
            .ok (tools_call_try env default_timeout request_id name argumentsJ)
          else
            .ok (create_error_response request_id (-32601) ("Unknown tool: " ++ name), [])
        | v =>
          .ok (create_error_response request_id (-32601) ("Unknown tool: " ++ pyStr v), [])

/-- `handle_request` (lines 120-141): the total dispatcher.  `method`,
`params` and `id` are read with their Python defaults; the three known
methods are routed, anything else gets `-32601`; the only exception
source inside the `try` is `_handle_tools_call` on a non-dict `params`,
and the `except` clause converts it to `-32603` keyed by
`request.get("id", 1)`. -/
def handle_request (env : Env) (default_timeout : Int) (request : JObj) :
    JObj × List Event :=
  if ((request.lookup "method").getD .null).eqStr "initialize" then
    (handle_init ((request.lookup "id").getD (.int 1)), [])
  else if ((request.lookup "method").getD .null).eqStr "tools/list" then
    (handle_tools_list ((request.lookup "id").getD (.int 1)), [])
  else if ((request.lookup "method").getD .null).eqStr "tools/call" then
    match handle_tools_call env default_timeout ((request.lookup "id").getD (.int 1))
        ((request.lookup "params").getD (.obj [])) with
    | .ok r => r
    | .error e =>
        (create_error_response ((request.lookup "id").getD (.int 1)) (-32603) e.msg, [])
  else
    (create_error_response ((request.lookup "id").getD (.int 1)) (-32601)
      ("Unknown method: " ++ pyStr ((request.lookup "method").getD .null)), [])

/-! ## Response shape and id echoing -/

/-- A well-formed wire response carrying `rid`: either `{jsonrpc, id,
result}` or `{jsonrpc, id, error:{code, message}}`. -/
def isGoodResponse (rid : JVal) (r : JObj) : Prop :=
  (∃ res, r = [("jsonrpc", .str "2.0"), ("id", rid), ("result", res)]) ∨
  (∃ c m, r = [("jsonrpc", .str "2.0"), ("id", rid),
    ("error", .obj [("code", .int c), ("message", .str m)])])

/-- The `error.code` of a response, when it is an error response. -/
def errCode (r : JObj) : Option Int :=
  match r.lookup "error" with
  | some (.obj fs) =>
      match fs.lookup "code" with
      | some (.int c) => some c
      | _ => none
  | _ => none

theorem good_create_error (rid : JVal) (c : Int) (m : String) :
    isGoodResponse rid (create_error_response rid c m) :=
  Or.inr ⟨c, m, rfl⟩

theorem good_catchToolExc (rid : JVal) (e : PyExc) :
    isGoodResponse rid (catchToolExc rid e) := by
  unfold catchToolExc
  split
  · exact good_create_error ..
  · exact good_create_error ..

theorem good_wrapToolOutcome (rid : JVal) (x : Except PyExc JObj × List Event) :
    isGoodResponse rid (wrapToolOutcome rid x).1 := by
  obtain ⟨(e | r), evs⟩ := x
  · exact good_catchToolExc rid e
  · exact Or.inl ⟨_, rfl⟩

theorem good_tools_call_try (env : Env) (dt : Int) (rid : JVal) (name : String)
    (args : JVal) : isGoodResponse rid (tools_call_try env dt rid name args).1 := by
  unfold tools_call_try
  split
  · exact good_catchToolExc ..
  · exact good_create_error ..
  · split
    · exact good_wrapToolOutcome ..
    · split
      · exact good_wrapToolOutcome ..
      · split
        · exact good_wrapToolOutcome ..
        · exact good_create_error ..

theorem good_handle_tools_call (env : Env) (dt : Int) (rid : JVal) (params : JVal)
    (rp : JObj × List Event)
    (h : handle_tools_call env dt rid params = .ok rp) : isGoodResponse rid rp.1 := by
  unfold handle_tools_call at h
  split at h
  · exact Except.noConfusion h
  · split at h
    · exact Except.noConfusion h
    · split at h
      · cases h
        exact good_create_error ..
      · split at h
        · split at h
          · cases h
            exact good_tools_call_try ..
          · cases h
            exact good_create_error ..
        · cases h
          exact good_create_error ..

theorem good_handle_request (env : Env) (dt : Int) (req : JObj) :
    isGoodResponse ((req.lookup "id").getD (.int 1)) (handle_request env dt req).1 := by
  unfold handle_request
  split
  · exact Or.inl ⟨_, rfl⟩
  · split
    · exact Or.inl ⟨_, rfl⟩
    · split
      · split
        · rename_i rp heq
          exact good_handle_tools_call _ _ _ _ rp heq
        · exact good_create_error ..
      · exact good_create_error ..

theorem lookup_id_of_good {rid : JVal} {r : JObj} (h : isGoodResponse rid r) :
    r.lookup "id" = some rid := by
  rcases h with ⟨res, rfl⟩ | ⟨c, m, rfl⟩ <;> rfl

/-! ## Witness environments and claims C1, C2 -/

/-- Sample environment in which every external collaborator succeeds
(used by the concrete witnesses). -/
def envReady : Env where
  is_terminal_running := true
  initial_find := some ⟨0, 0, 800, 600⟩
  initial_focus := true
  launch_ok := true
  retry_find := fun _ => some ⟨0, 0, 800, 600⟩
  retry_focus := fun _ => true
  paste_ok := true
  clipboard_read := .ok "hello"
  capture_find := some ⟨0, 0, 800, 600⟩
  abspath := fun p => "C:/abs/" ++ p
  temp_path := "C:/tmp/terminal_capture_1700000000.png"
  save_result := .ok 4242

/-- Sample environment in which no terminal window ever becomes
available: the launch succeeds but every discovery attempt fails, and
the capture-time window query finds nothing. -/
def envDown : Env := { envReady with
  is_terminal_running := false
  retry_find := fun _ => none
  retry_focus := fun _ => false
  capture_find := none }

/-- The three methods the dispatcher routes. -/
def recognizedMethod (m : JVal) : Bool :=
  m.eqStr "initialize" || m.eqStr "tools/list" || m.eqStr "tools/call"

/-- Claim C1: `handle_request` is total on request mappings — it is a
total function in this embedding, and its value is always either an
`{id, result}` or an `{id, error:{code, message}}` object; moreover any
request whose method is not `initialize`, `tools/list` or `tools/call`
(including an absent or non-string method) gets an error response with
code `-32601`. -/
theorem C1_dispatcher_total_and_unknown_method (env : Env) (dt : Int) (req : JObj) :
    isGoodResponse ((req.lookup "id").getD (.int 1)) (handle_request env dt req).1 ∧
    (recognizedMethod ((req.lookup "method").getD .null) = false →
      errCode (handle_request env dt req).1 = some (-32601)) := by
  refine ⟨good_handle_request env dt req, fun h => ?_⟩
  unfold recognizedMethod at h
  simp only [Bool.or_eq_false_iff] at h
  obtain ⟨⟨h1, h2⟩, h3⟩ := h
  unfold handle_request
  rw [h1, h2, h3]
  simp [errCode, create_error_response, List.lookup]

/-- Witness for C1 at the concrete request `{"method": "frobnicate",
"id": 7}`: the unknown method yields error code `-32601`. -/
theorem C1_witness :
    errCode (handle_request envReady 30 [("method", .str "frobnicate"), ("id", .int 7)]).1 =
      some (-32601) :=
  (C1_dispatcher_total_and_unknown_method envReady 30
    [("method", .str "frobnicate"), ("id", .int 7)]).2 (by rfl)

/-- Claim C2: the response id always echoes the request id; when the
request has no `id` field the declared fallback id `1` is used. -/
theorem C2_response_id_echo (env : Env) (dt : Int) (req : JObj) :
    (∀ idv, req.lookup "id" = some idv →
      ((handle_request env dt req).1).lookup "id" = some idv) ∧
    (req.lookup "id" = none →
      ((handle_request env dt req).1).lookup "id" = some (.int 1)) := by
  have hid := lookup_id_of_good (good_handle_request env dt req)
  constructor
  · intro idv h
    rw [hid, h]
    rfl
  · intro h
    rw [hid, h]
    rfl

/-- Witness for C2: a `tools/call` request for `get_clipboard` with
id 42 is answered with id 42, and a request without id with id 1. -/
theorem C2_witness :
    ((handle_request envReady 30 [("method", .str "tools/call"), ("id", .int 42),
        ("params", .obj [("name", .str "get_clipboard")])]).1).lookup "id" =
      some (.int 42) ∧
    ((handle_request envReady 30 [("method", .str "tools/list")]).1).lookup "id" =
      some (.int 1) :=
  ⟨(C2_response_id_echo envReady 30 [("method", .str "tools/call"), ("id", .int 42),
      ("params", .obj [("name", .str "get_clipboard")])]).1 (.int 42) rfl,
   (C2_response_id_echo envReady 30 [("method", .str "tools/list")]).2 rfl⟩

/-! ## Claim C3 -/

/-- Routing: a `tools/call` request whose params read as a dict is
answered by `_handle_tools_call`. -/
theorem handle_request_tools_call (env : Env) (dt : Int) (req : JObj) (pfs : JObj)
    (hm : (req.lookup "method").getD .null = .str "tools/call")
    (hp : (req.lookup "params").getD (.obj []) = .obj pfs) :
    handle_request env dt req =
      match handle_tools_call env dt ((req.lookup "id").getD (.int 1)) (.obj pfs) with
      | .ok r => r
      | .error e =>
          (create_error_response ((req.lookup "id").getD (.int 1)) (-32603) e.msg, []) := by
  unfold handle_request
  rw [hm, hp]
  rfl

/-- A `tools/call` on dict params naming the registered tool
`execute_pwsh_script` runs the `try` block. -/
theorem handle_tools_call_exec (env : Env) (dt : Int) (rid : JVal) (pfs afs : JObj)
    (hn : pfs.lookup "name" = some (.str "execute_pwsh_script"))
    (ha : (pfs.lookup "arguments").getD (.obj []) = .obj afs) :
    handle_tools_call env dt rid (.obj pfs) =
      .ok (tools_call_try env dt rid "execute_pwsh_script" (.obj afs)) := by
  unfold handle_tools_call
  simp [pyObjGetD, hn, ha, JVal.truthy, tools, List.lookup]

/-- The validator's verdict on a blank (empty or whitespace-only)
`script` argument, whatever else the arguments contain. -/
theorem validate_blank_script (dtv : JVal) (afs : JObj) (s : String)
    (hs : afs.lookup "script" = some (.str s)) (hblank : pyStrip s = "") :
    validate_tool_arguments dtv "execute_pwsh_script" (.obj afs) =
      .ok (some "Script cannot be empty") := by
  unfold validate_tool_arguments
  simp only [tools, List.lookup, executePwshScriptDef]
  simp [checkRequired, pyContains, hs, pyObjGetD]
  by_cases hse : s = ""
  · simp [hse, JVal.truthy]
  · simp [JVal.truthy, hse, hblank]

/-- Claim C3: a `tools/call` of `execute_pwsh_script` whose `script`
argument is empty or whitespace-only is rejected by the validator with a
`-32602` "Script cannot be empty" error; the session state machine is
never invoked and no tool body runs (so the call can never succeed). -/
theorem C3_blank_script_fails_fast (env : Env) (dt : Int) (req : JObj)
    (pfs afs : JObj) (s : String)
    (hm : (req.lookup "method").getD .null = .str "tools/call")
    (hp : (req.lookup "params").getD (.obj []) = .obj pfs)
    (hn : pfs.lookup "name" = some (.str "execute_pwsh_script"))
    (ha : (pfs.lookup "arguments").getD (.obj []) = .obj afs)
    (hs : afs.lookup "script" = some (.str s))
    (hblank : pyStrip s = "") :
    (handle_request env dt req).1 =
      create_error_response ((req.lookup "id").getD (.int 1)) (-32602)
        "Script cannot be empty" ∧
    Event.ensureTerminal ∉ (handle_request env dt req).2 ∧
    (∀ t, Event.toolBody t ∉ (handle_request env dt req).2) := by
  have hroute := handle_request_tools_call env dt req pfs hm hp
  have hcall := handle_tools_call_exec env dt ((req.lookup "id").getD (.int 1)) pfs afs hn ha
  have hval := validate_blank_script (.int dt) afs s hs hblank
  have htry : tools_call_try env dt ((req.lookup "id").getD (.int 1))
      "execute_pwsh_script" (.obj afs) =
      (create_error_response ((req.lookup "id").getD (.int 1)) (-32602)
        "Script cannot be empty", [Event.validateArgs "execute_pwsh_script"]) := by
    unfold tools_call_try
    rw [hval]
  rw [hroute, hcall, htry]
  refine ⟨rfl, by simp, fun t => by simp⟩

/-- Witness for C3 at the spec's end-to-end example: script `"   "`. -/
theorem C3_witness :
    (handle_request envReady 30 [("method", .str "tools/call"), ("id", .int 2),
        ("params", .obj [("name", .str "execute_pwsh_script"),
          ("arguments", .obj [("script", .str "   ")])])]).1 =
      create_error_response (.int 2) (-32602) "Script cannot be empty" ∧
    Event.ensureTerminal ∉
      (handle_request envReady 30 [("method", .str "tools/call"), ("id", .int 2),
        ("params", .obj [("name", .str "execute_pwsh_script"),
          ("arguments", .obj [("script", .str "   ")])])]).2 := by
  have h := C3_blank_script_fails_fast envReady 30
    [("method", .str "tools/call"), ("id", .int 2),
      ("params", .obj [("name", .str "execute_pwsh_script"),
        ("arguments", .obj [("script", .str "   ")])])]
    [("name", .str "execute_pwsh_script"), ("arguments", .obj [("script", .str "   ")])]
    [("script", .str "   ")] "   " rfl rfl rfl rfl rfl (by decide)
  exact ⟨h.1, h.2.1⟩

/-! ## Claim C4 -/

/-- The retry loop only ever raises `TerminalNotAvailableError` with its
fixed message. -/
theorem ensureRetry_err (env : Env) :
    ∀ (fuel a : Nat) (e : PyExc), (ensureRetry env fuel a).1 = .error e →
    e = .terminalNotAvailableError "Terminal window not available after multiple attempts" := by
  intro fuel
  induction fuel with
  | zero =>
      intro a e h
      simp [ensureRetry] at h
      exact h.symm
  | succ n ih =>
      intro a e h
      rcases hrec : ensureRetry env n (a + 1) with ⟨r, evs⟩
      rcases hf : env.retry_find a with _ | w
      · simp [ensureRetry, hf, hrec] at h
        exact ih (a + 1) e (by rw [hrec]; simpa using h)
      · by_cases hb : env.retry_focus a
        · simp [ensureRetry, hf, hb] at h
        · simp [ensureRetry, hf, hb, hrec] at h
          exact ih (a + 1) e (by rw [hrec]; simpa using h)

/-- `_ensure_terminal_available` only ever raises
`TerminalNotAvailableError`. -/
theorem ensure_err (env : Env) (e : PyExc)
    (h : (ensure_terminal_available env).1 = .error e) :
    ∃ m, e = .terminalNotAvailableError m := by
  unfold ensure_terminal_available at h
  split at h
  · exact absurd h (by simp)
  · split at h
    · refine ⟨"Failed to launch Windows Terminal", ?_⟩
      simpa using h.symm
    · rcases hrec : ensureRetry env DEFAULT_RETRY_ATTEMPTS 0 with ⟨r, evs⟩
      rw [hrec] at h
      exact ⟨_, ensureRetry_err env DEFAULT_RETRY_ATTEMPTS 0 e (by rw [hrec]; simpa using h)⟩

/-- When readiness fails, the orchestrator re-raises the state machine
error unchanged (given a non-blank string script). -/
theorem execute_ensure_fail (env : Env) (s : String) (t : JVal) (e : PyExc)
    (hsnb : pyStrip s ≠ "") (hens : (ensure_terminal_available env).1 = .error e) :
    (execute_pwsh_script env (.str s) t).1 = .error e := by
  have hs0 : s ≠ "" := fun h => hsnb (by rw [h]; rfl)
  rcases hE : ensure_terminal_available env with ⟨r, evs⟩
  rw [hE] at hens
  subst hens
  unfold execute_pwsh_script
  simp [JVal.truthy, hs0, hsnb, hE]

/-- The `try` block of a validated `execute_pwsh_script` call dispatches
to the tool with `arguments.get("script", "")` and
`arguments.get("timeout", default_timeout)`. -/
theorem tools_call_try_exec (env : Env) (dt : Int) (rid : JVal) (afs : JObj)
    (hval : validate_tool_arguments (.int dt) "execute_pwsh_script" (.obj afs) = .ok none) :
    tools_call_try env dt rid "execute_pwsh_script" (.obj afs) =
      wrapToolOutcome rid
        ((execute_pwsh_script env ((afs.lookup "script").getD (.str ""))
            ((afs.lookup "timeout").getD (.int dt))).1,
          Event.validateArgs "execute_pwsh_script" ::
            (execute_pwsh_script env ((afs.lookup "script").getD (.str ""))
              ((afs.lookup "timeout").getD (.int dt))).2) := by
  unfold tools_call_try
  rw [hval]
  rfl

/-- The validator accepts every dict argument mapping for
`capture_pwsh_response` (no required fields, no specific constraints). -/
theorem validate_capture_ok (dtv : JVal) (afs : JObj) :
    validate_tool_arguments dtv "capture_pwsh_response" (.obj afs) = .ok none := rfl

/-- A `tools/call` on dict params naming `capture_pwsh_response` runs
the `try` block. -/
theorem handle_tools_call_capture (env : Env) (dt : Int) (rid : JVal) (pfs afs : JObj)
    (hn : pfs.lookup "name" = some (.str "capture_pwsh_response"))
    (ha : (pfs.lookup "arguments").getD (.obj []) = .obj afs) :
    handle_tools_call env dt rid (.obj pfs) =
      .ok (tools_call_try env dt rid "capture_pwsh_response" (.obj afs)) := by
  unfold handle_tools_call
  simp [pyObjGetD, hn, ha, JVal.truthy, tools, List.lookup]

/-- An unlocatable window makes `capture_terminal_output` return `None`,
so `capture_pwsh_response` raises the fixed `PowerShellMCPError`. -/
theorem capture_no_window (env : Env) (sp ex : JVal) (hcap : env.capture_find = none) :
    (capture_pwsh_response env sp ex).1 =
      .error (.powerShellMCPError
        "Failed to capture terminal window - window may not be visible or accessible") := by
  unfold capture_pwsh_response capture_terminal_output
  rw [hcap]

/-- Counterexample to claim C4 as stated: with a terminal that never
becomes ready, the `execute_pwsh_script` call is answered by a
protocol-level `-32603` JSON-RPC error (the `PowerShellMCPError` branch
of `_handle_tools_call`), and the response carries no `result` member at
all — in particular no structured `ToolResult{success:false}` payload. -/
theorem C4_counterexample :
    ((handle_request envDown 30 [("method", .str "tools/call"), ("id", .int 5),
        ("params", .obj [("name", .str "execute_pwsh_script"),
          ("arguments", .obj [("script", .str "ls")])])]).1).lookup "error" =
      some (.obj [("code", .int (-32603)),
        ("message", .str "Terminal window not available after multiple attempts")]) ∧
    ((handle_request envDown 30 [("method", .str "tools/call"), ("id", .int 5),
        ("params", .obj [("name", .str "execute_pwsh_script"),
          ("arguments", .obj [("script", .str "ls")])])]).1).lookup "result" = none :=
  ⟨rfl, rfl⟩

/-- The `try` block of a `capture_pwsh_response` call (always validated)
dispatches to the tool with `arguments.get("save_path")` and
`arguments.get("exclude_titlebar", True)`. -/
theorem tools_call_try_capture (env : Env) (dt : Int) (rid : JVal) (afs : JObj) :
    tools_call_try env dt rid "capture_pwsh_response" (.obj afs) =
      wrapToolOutcome rid
        ((capture_pwsh_response env ((afs.lookup "save_path").getD .null)
            ((afs.lookup "exclude_titlebar").getD (.bool true))).1,
          Event.validateArgs "capture_pwsh_response" ::
            (capture_pwsh_response env ((afs.lookup "save_path").getD .null)
              ((afs.lookup "exclude_titlebar").getD (.bool true))).2) := by
  unfold tools_call_try
  rw [validate_capture_ok]
  rfl

/-- Claim C4 (amended): when the session cannot reach Ready after the
full retry budget, or the terminal window cannot be located for a
screenshot capture, the raised `PowerShellMCPError` is converted by
`_handle_tools_call` into a `-32603` JSON-RPC error response carrying
the exception message (not a `ToolResult{success:false}` payload), and
`handle_request` returns it as an ordinary value, so the request loop
continues. -/
theorem C4_amended_domain_errors_are_32603
    (env : Env) (dt : Int)
    (req : JObj) (pfs afs : JObj) (s : String) (e : PyExc)
    (hm : (req.lookup "method").getD .null = .str "tools/call")
    (hp : (req.lookup "params").getD (.obj []) = .obj pfs)
    (hn : pfs.lookup "name" = some (.str "execute_pwsh_script"))
    (ha : (pfs.lookup "arguments").getD (.obj []) = .obj afs)
    (hval : validate_tool_arguments (.int dt) "execute_pwsh_script" (.obj afs) = .ok none)
    (hs : (afs.lookup "script").getD (.str "") = .str s)
    (hsnb : pyStrip s ≠ "")
    (hens : (ensure_terminal_available env).1 = .error e)
    (req2 : JObj) (pfs2 afs2 : JObj)
    (hm2 : (req2.lookup "method").getD .null = .str "tools/call")
    (hp2 : (req2.lookup "params").getD (.obj []) = .obj pfs2)
    (hn2 : pfs2.lookup "name" = some (.str "capture_pwsh_response"))
    (ha2 : (pfs2.lookup "arguments").getD (.obj []) = .obj afs2)
    (hcap : env.capture_find = none) :
    e.isPowerShellMCPError = true ∧
    (handle_request env dt req).1 =
      create_error_response ((req.lookup "id").getD (.int 1)) (-32603) e.msg ∧
    (handle_request env dt req2).1 =
      create_error_response ((req2.lookup "id").getD (.int 1)) (-32603)
        "Failed to capture terminal window - window may not be visible or accessible" := by
  obtain ⟨m, rfl⟩ := ensure_err env e hens
  refine ⟨rfl, ?_, ?_⟩
  · rw [handle_request_tools_call env dt req pfs hm hp,
      handle_tools_call_exec env dt _ pfs afs hn ha,
      tools_call_try_exec env dt _ afs hval, hs,
      execute_ensure_fail env s ((afs.lookup "timeout").getD (.int dt))
        (.terminalNotAvailableError m) hsnb hens]
    rfl
  · rw [handle_request_tools_call env dt req2 pfs2 hm2 hp2,
      handle_tools_call_capture env dt _ pfs2 afs2 hn2 ha2,
      tools_call_try_capture env dt _ afs2,
      capture_no_window env _ _ hcap]
    rfl

/-- Witness for the amended C4 in the all-failing environment: both the
never-ready session and the unlocatable capture window produce `-32603`
error responses with the exception messages. -/
theorem C4_amended_witness :
    (handle_request envDown 30 [("method", .str "tools/call"), ("id", .int 11),
        ("params", .obj [("name", .str "execute_pwsh_script"),
          ("arguments", .obj [("script", .str "ls")])])]).1 =
      create_error_response (.int 11) (-32603)
        "Terminal window not available after multiple attempts" ∧
    (handle_request envDown 30 [("method", .str "tools/call"), ("id", .int 12),
        ("params", .obj [("name", .str "capture_pwsh_response")])]).1 =
      create_error_response (.int 12) (-32603)
        "Failed to capture terminal window - window may not be visible or accessible" := by
  have h := C4_amended_domain_errors_are_32603 envDown 30
    [("method", .str "tools/call"), ("id", .int 11),
      ("params", .obj [("name", .str "execute_pwsh_script"),
        ("arguments", .obj [("script", .str "ls")])])]
    [("name", .str "execute_pwsh_script"), ("arguments", .obj [("script", .str "ls")])]
    [("script", .str "ls")] "ls"
    (.terminalNotAvailableError "Terminal window not available after multiple attempts")
    rfl rfl rfl rfl rfl rfl (by decide) rfl
    [("method", .str "tools/call"), ("id", .int 12),
      ("params", .obj [("name", .str "capture_pwsh_response")])]
    [("name", .str "capture_pwsh_response")] [] rfl rfl rfl rfl rfl
  exact ⟨h.2.1, h.2.2⟩

/-! ## Claim C5 -/

/-- Child lookup in a JSON object value. -/
def jChild (v : JVal) (k : String) : Option JVal :=
  match v with
  | .obj fs => fs.lookup k
  | _ => none

/-- Claim C5 (evidence of the code bug): the published `inputSchema` of
`execute_pwsh_script` declares `timeout` of type `"integer"` with range
1-300, yet the hand-rolled validator accepts the boolean `true` (Python
`bool` is a subclass of `int`, so `isinstance(timeout, int)` holds and
`True` compares as 1), so a `tools/call` with `"timeout": true` — which
the claim and the schema say must be rejected with `-32602` — instead
runs the tool body and is answered with a success response. -/
theorem C5_bool_timeout_accepted :
    ((jChild executePwshScriptDef "inputSchema").bind
      (fun v => (jChild v "properties").bind
        (fun p => (jChild p "timeout").bind (fun t => jChild t "type")))) =
      some (.str "integer") ∧
    validate_tool_arguments (.int 30) "execute_pwsh_script"
      (.obj [("script", .str "Get-Date"), ("timeout", .bool true)]) = .ok none ∧
    ((handle_request envReady 30 [("method", .str "tools/call"), ("id", .int 3),
        ("params", .obj [("name", .str "execute_pwsh_script"),
          ("arguments", .obj [("script", .str "Get-Date"),
            ("timeout", .bool true)])])]).1).lookup "error" = none ∧
    (∃ res, ((handle_request envReady 30 [("method", .str "tools/call"), ("id", .int 3),
        ("params", .obj [("name", .str "execute_pwsh_script"),
          ("arguments", .obj [("script", .str "Get-Date"),
            ("timeout", .bool true)])])]).1).lookup "result" = some res) ∧
    Event.toolBody "execute_pwsh_script" ∈
      (handle_request envReady 30 [("method", .str "tools/call"), ("id", .int 3),
        ("params", .obj [("name", .str "execute_pwsh_script"),
          ("arguments", .obj [("script", .str "Get-Date"),
            ("timeout", .bool true)])])]).2 :=
  ⟨rfl, rfl, rfl, ⟨_, rfl⟩, by decide⟩

/-! ## Claim C6 -/

/-- `String.append` is list append on the character data. -/
theorem string_data_append (a b : String) : (a ++ b).data = a.data ++ b.data := rfl

/-- The character data of `"\n"`. -/
theorem newline_data : ("\n" : String).data = ['\n'] := rfl

/-- `splitNL` never returns the empty list of pieces. -/
theorem splitNL_ne_nil (cs : List Char) : splitNL cs ≠ [] := by
  cases cs with
  | nil => simp [splitNL]
  | cons c t =>
      unfold splitNL
      split
      · simp
      · split <;> simp

/-- A newline-free piece splits to itself. -/
theorem splitNL_no_newline (l : List Char) (h : '\n' ∉ l) : splitNL l = [l] := by
  induction l with
  | nil => rfl
  | cons c t ih =>
      simp only [List.mem_cons, not_or] at h
      have hc : c ≠ '\n' := fun hx => h.1 hx.symm
      simp only [splitNL]
      rw [ih h.2]
      simp [hc]

/-- Splitting after a newline-free leading piece. -/
theorem splitNL_append_mid (l cs : List Char) (h : '\n' ∉ l) :
    splitNL (l ++ '\n' :: cs) = l :: splitNL cs := by
  induction l with
  | nil => rfl
  | cons c t ih =>
      simp only [List.mem_cons, not_or] at h
      have hc : c ≠ '\n' := fun hx => h.1 hx.symm
      simp only [List.cons_append, splitNL, List.append_eq]
      rw [ih h.2]
      simp [hc]

/-- Splitting before a newline-free trailing piece. -/
theorem splitNL_append_last (cs l : List Char) (h : '\n' ∉ l) :
    splitNL (cs ++ '\n' :: l) = splitNL cs ++ [l] := by
  induction cs with
  | nil =>
      simp only [List.nil_append]
      unfold splitNL
      rw [splitNL_no_newline l h]
      simp
  | cons c t ih =>
      simp only [List.cons_append]
      unfold splitNL
      rw [ih]
      by_cases hc : c = '\n'
      · simp [hc]
      · simp only [if_neg hc]
        rcases hnn : splitNL t with _ | ⟨m, ms⟩
        · exact absurd hnn (splitNL_ne_nil t)
        · simp

/-- The success payload of a validated, delivered script execution. -/
theorem execute_success_payload (env : Env) (s : String) (t : JVal)
    (hsnb : pyStrip s ≠ "") (hens : (ensure_terminal_available env).1 = .ok ())
    (hpaste : env.paste_ok = true) :
    (execute_pwsh_script env (.str s) t).1 = .ok
      (ToolResult.to_dict
        { success := true
          data := some [
            ("lines_count", .int ((scriptLines s).length : Int)),
            ("is_multiline", .bool (decide (1 < (scriptLines s).length))),
            ("script_type", .str (if decide (1 < (scriptLines s).length) then
              "multi-line script" else "single command")),
            ("timeout_used", t),
            ("message", .str (pyCapitalize (if decide (1 < (scriptLines s).length) then
                "multi-line script" else "single command") ++ " with " ++
              toString (scriptLines s).length ++ " line" ++
              (if (scriptLines s).length != 1 then "s" else "") ++
              " executed successfully"))] }) := by
  have hs0 : s ≠ "" := fun h => hsnb (by rw [h]; rfl)
  rcases hE : ensure_terminal_available env with ⟨r, evs⟩
  rw [hE] at hens
  subst hens
  unfold execute_pwsh_script
  simp [JVal.truthy, hs0, hsnb, hE, hpaste]

/-- Claim C6: for every non-blank script accepted by
`execute_pwsh_script` (in an environment where the session reaches Ready
and the paste succeeds), the result reports `is_multiline = (N > 1)` for
`N` the number of non-blank lines (so exactly one non-blank line gives
`false`), together with the line count and the configured timeout; and
the classification is invariant under blank-line padding: prepending or
appending a blank line leaves the non-blank line list unchanged. -/
theorem C6_multiline_classification (env : Env) (s : String) (t : Int)
    (hsnb : pyStrip s ≠ "")
    (hens : (ensure_terminal_available env).1 = .ok ())
    (hpaste : env.paste_ok = true) :
    (∃ payload, (execute_pwsh_script env (.str s) (.int t)).1 = .ok payload ∧
      payload.lookup "success" = some (.bool true) ∧
      payload.lookup "lines_count" = some (.int ((scriptLines s).length : Int)) ∧
      payload.lookup "is_multiline" = some (.bool (decide (1 < (scriptLines s).length))) ∧
      payload.lookup "timeout_used" = some (.int t)) ∧
    (∀ b : String, pyStripL b.data = [] → '\n' ∉ b.data →
      scriptLines (b ++ "\n" ++ s) = scriptLines s ∧
      scriptLines (s ++ "\n" ++ b) = scriptLines s) := by
  constructor
  · refine ⟨_, execute_success_payload env s (.int t) hsnb hens hpaste, ?_, ?_, ?_, ?_⟩ <;>
      simp [ToolResult.to_dict, List.lookup]
  · intro b hb hnl
    constructor
    · have hdata : (b ++ "\n" ++ s).data = b.data ++ '\n' :: s.data := by
        simp [string_data_append, newline_data, List.append_assoc]
      unfold scriptLines
      rw [hdata, splitNL_append_mid b.data s.data hnl]
      simp [hb]
    · have hdata : (s ++ "\n" ++ b).data = s.data ++ '\n' :: b.data := by
        simp [string_data_append, newline_data, List.append_assoc]
      unfold scriptLines
      rw [hdata, splitNL_append_last s.data b.data hnl]
      simp [hb]

/-- Witness for C6: the two-line script `"a\nb"` is classified
multiline with 2 lines and timeout 42 echoed; padding with the blank
line `" "` does not change the non-blank line list. -/
theorem C6_witness :
    (∃ payload, (execute_pwsh_script envReady (.str "a\nb") (.int 42)).1 = .ok payload ∧
      payload.lookup "success" = some (.bool true) ∧
      payload.lookup "lines_count" = some (.int 2) ∧
      payload.lookup "is_multiline" = some (.bool true) ∧
      payload.lookup "timeout_used" = some (.int 42)) ∧
    scriptLines (" " ++ "\n" ++ "a\nb") = scriptLines "a\nb" ∧
    scriptLines ("a\nb" ++ "\n" ++ " ") = scriptLines "a\nb" := by
  have h := C6_multiline_classification envReady "a\nb" 42 (by decide) rfl rfl
  have hpad := h.2 " " (by decide) (by decide)
  refine ⟨?_, hpad.1, hpad.2⟩
  obtain ⟨payload, h1, h2, h3, h4, h5⟩ := h.1
  exact ⟨payload, h1, h2, by rw [h3]; rfl, by rw [h4]; rfl, h5⟩

/-! ## Claim C7 -/

/-- Recognizer for window-discovery/focus attempts in the event trace. -/
def isFindAttempt : Event → Bool
  | .findAttempt _ => true
  | _ => false

/-- The retry loop performs at most `fuel` discovery attempts. -/
theorem ensureRetry_trace_le (env : Env) :
    ∀ (fuel a : Nat), ((ensureRetry env fuel a).2).length ≤ fuel := by
  intro fuel
  induction fuel with
  | zero => intro a; simp [ensureRetry]
  | succ n ih =>
      intro a
      rcases hrec : ensureRetry env n (a + 1) with ⟨r, evs⟩
      have hlen : evs.length ≤ n := by
        have := ih (a + 1)
        rw [hrec] at this
        exact this
      unfold ensureRetry
      rcases hf : env.retry_find a with _ | w
      · simp [hf, hrec]
        omega
      · by_cases hb : env.retry_focus a
        · simp [hf, hb]
        · simp [hf, hb, hrec]
          omega

/-- If every attempt of the budget fails (window not found, or found
but not focusable), the retry loop raises `TerminalNotAvailableError`. -/
theorem ensureRetry_all_fail (env : Env) :
    ∀ (fuel a : Nat),
    (∀ i, a ≤ i → i < a + fuel → env.retry_find i = none ∨ env.retry_focus i = false) →
    (ensureRetry env fuel a).1 =
      .error (.terminalNotAvailableError
        "Terminal window not available after multiple attempts") := by
  intro fuel
  induction fuel with
  | zero => intro a _; rfl
  | succ n ih =>
      intro a hall
      have ha := hall a (Nat.le_refl a) (by omega)
      rcases hrec : ensureRetry env n (a + 1) with ⟨r, evs⟩
      have hr : r = .error (.terminalNotAvailableError
          "Terminal window not available after multiple attempts") := by
        have := ih (a + 1) (fun i h1 h2 => hall i (by omega) (by omega))
        rw [hrec] at this
        exact this
      unfold ensureRetry
      rcases hf : env.retry_find a with _ | w
      · simp [hf, hrec, hr]
      · rcases ha with ha | ha
        · rw [ha] at hf
          exact Option.noConfusion hf
        · simp [hf, ha, hrec, hr]

/-- Claim C7: the ensure-ready logic is bounded — its trace contains at
most `DEFAULT_RETRY_ATTEMPTS = 10` window-discovery/focus attempts for
every environment — and when a launch is needed (the initial fast path
fails), the launch succeeds, and every attempt of the budget fails to
discover-and-focus a window, it terminates by raising
`TerminalNotAvailableError`; it never retries beyond the budget. -/
theorem C7_retry_budget_bounded (env : Env) :
    (((ensure_terminal_available env).2).filter isFindAttempt).length ≤
      DEFAULT_RETRY_ATTEMPTS ∧
    ((env.is_terminal_running && env.initial_find.isSome && env.initial_focus) = false →
     env.launch_ok = true →
     (∀ i, i < DEFAULT_RETRY_ATTEMPTS →
        env.retry_find i = none ∨ env.retry_focus i = false) →
     (ensure_terminal_available env).1 =
       .error (.terminalNotAvailableError
         "Terminal window not available after multiple attempts")) := by
  constructor
  · unfold ensure_terminal_available
    split
    · simp
    · split
      · simp [isFindAttempt]
      · rcases hrec : ensureRetry env DEFAULT_RETRY_ATTEMPTS 0 with ⟨r, evs⟩
        have hlen : evs.length ≤ DEFAULT_RETRY_ATTEMPTS := by
          have := ensureRetry_trace_le env DEFAULT_RETRY_ATTEMPTS 0
          rw [hrec] at this
          exact this
        simp [hrec, isFindAttempt]
        calc (evs.filter isFindAttempt).length ≤ evs.length := List.length_filter_le _ _
          _ ≤ DEFAULT_RETRY_ATTEMPTS := hlen
  · intro hfast hlaunch hall
    unfold ensure_terminal_available
    rw [hfast, hlaunch]
    rcases hrec : ensureRetry env DEFAULT_RETRY_ATTEMPTS 0 with ⟨r, evs⟩
    have hr := ensureRetry_all_fail env DEFAULT_RETRY_ATTEMPTS 0
      (fun i h1 h2 => hall i (by omega))
    rw [hrec] at hr
    simp [hrec, hr]

/-- Witness for C7 in the all-failing environment: the budget is
exhausted (exactly the bounded number of attempts is possible) and the
state machine reports `TerminalNotAvailableError`. -/
theorem C7_witness :
    (((ensure_terminal_available envDown).2).filter isFindAttempt).length ≤
      DEFAULT_RETRY_ATTEMPTS ∧
    (ensure_terminal_available envDown).1 =
      .error (.terminalNotAvailableError
        "Terminal window not available after multiple attempts") := by
  have h := C7_retry_budget_bounded envDown
  exact ⟨h.1, h.2 rfl rfl (fun i _ => Or.inl rfl)⟩

/-! ## Claims C8 and C9 -/

/-- Claim C8: with titlebar exclusion, the capture rectangle starts
exactly `TITLE_BAR_HEIGHT = 35` units below the window top and its
height is the window height reduced by exactly 35; when the reduced
height is not positive (or the width is not positive) the capture is
rejected by returning `none` — never clamped. -/
theorem C8_titlebar_exclusion_geometry (w : WindowRect) :
    (0 < w.width → TITLE_BAR_HEIGHT < w.height →
      ∃ b, capture_terminal_output (some w) true = some b ∧
        b.y1 = w.top + TITLE_BAR_HEIGHT ∧
        b.y2 - b.y1 = w.height - TITLE_BAR_HEIGHT ∧
        b.x1 = w.left ∧
        b.x2 - b.x1 = w.width) ∧
    (w.height - TITLE_BAR_HEIGHT ≤ 0 →
      capture_terminal_output (some w) true = none) := by
  constructor
  · intro hw hh
    refine ⟨⟨w.left, w.top + TITLE_BAR_HEIGHT, w.left + w.width,
      (w.top + TITLE_BAR_HEIGHT) + (w.height - TITLE_BAR_HEIGHT)⟩, ?_, rfl, by ring, rfl, by ring⟩
    unfold TITLE_BAR_HEIGHT at hh
    unfold capture_terminal_output TITLE_BAR_HEIGHT
    have h1 : ¬(w.width ≤ 0) := by omega
    have h2 : ¬(w.height - 35 ≤ 0) := by omega
    simp [h1, h2]
  · intro hh
    unfold TITLE_BAR_HEIGHT at hh
    unfold capture_terminal_output TITLE_BAR_HEIGHT
    simp [hh]

/-- Witness for C8 at two concrete windows: a 300x200 window at
(10, 20) is captured as the rectangle from (10, 55) of size 300x165,
and a window of height 30 (not exceeding the titlebar height) is
rejected. -/
theorem C8_witness :
    (∃ b, capture_terminal_output (some ⟨10, 20, 300, 200⟩) true = some b ∧
      b.y1 = 20 + TITLE_BAR_HEIGHT ∧
      b.y2 - b.y1 = 200 - TITLE_BAR_HEIGHT ∧
      b.x1 = 10 ∧ b.x2 - b.x1 = 300) ∧
    capture_terminal_output (some ⟨10, 20, 300, 30⟩) true = none := by
  have h1 := (C8_titlebar_exclusion_geometry ⟨10, 20, 300, 200⟩).1 (by decide) (by decide)
  have h2 := (C8_titlebar_exclusion_geometry ⟨10, 20, 300, 30⟩).2 (by decide)
  exact ⟨h1, h2⟩

/-- Names of the tool definitions in a tools list. -/
def toolNames (ts : List JVal) : List (Option JVal) :=
  ts.map (fun d => jChild d "name")

/-- The `result.tools` member of a response. -/
def resultTools (r : JObj) : Option JVal :=
  match r.lookup "result" with
  | some (.obj fs) => fs.lookup "tools"
  | _ => none

/-- Claim C9: `tools/list` is idempotent and determinate — every
`tools/list` request (whatever its id and whatever the environment) is
answered with exactly the same tool list, namely the three registered
definitions, whose names are exactly `execute_pwsh_script`,
`get_clipboard` and `capture_pwsh_response` (no hidden tools). -/
theorem C9_tools_list_idempotent (env₁ env₂ : Env) (dt₁ dt₂ : Int) (req₁ req₂ : JObj)
    (h₁ : (req₁.lookup "method").getD .null = .str "tools/list")
    (h₂ : (req₂.lookup "method").getD .null = .str "tools/list") :
    resultTools (handle_request env₁ dt₁ req₁).1 =
      some (.arr (tools.map Prod.snd)) ∧
    resultTools (handle_request env₂ dt₂ req₂).1 =
      some (.arr (tools.map Prod.snd)) ∧
    resultTools (handle_request env₁ dt₁ req₁).1 =
      resultTools (handle_request env₂ dt₂ req₂).1 ∧
    (tools.map Prod.snd).length = 3 ∧
    toolNames (tools.map Prod.snd) =
      [some (.str "execute_pwsh_script"), some (.str "get_clipboard"),
       some (.str "capture_pwsh_response")] := by
  have key : ∀ (env : Env) (dt : Int) (req : JObj),
      (req.lookup "method").getD .null = .str "tools/list" →
      resultTools (handle_request env dt req).1 = some (.arr (tools.map Prod.snd)) := by
    intro env dt req h
    unfold handle_request
    rw [h]
    rfl
  have k₁ := key env₁ dt₁ req₁ h₁
  have k₂ := key env₂ dt₂ req₂ h₂
  exact ⟨k₁, k₂, k₁.trans k₂.symm, rfl, rfl⟩

/-- Witness for C9: two concrete `tools/list` calls with different ids
and environments return the identical three-tool list. -/
theorem C9_witness :
    resultTools (handle_request envReady 30 [("method", .str "tools/list"),
      ("id", .int 1)]).1 = some (.arr (tools.map Prod.snd)) ∧
    resultTools (handle_request envDown 30 [("method", .str "tools/list"),
      ("id", .int 2)]).1 = some (.arr (tools.map Prod.snd)) ∧
    resultTools (handle_request envReady 30 [("method", .str "tools/list"),
      ("id", .int 1)]).1 =
      resultTools (handle_request envDown 30 [("method", .str "tools/list"),
        ("id", .int 2)]).1 := by
  have h := C9_tools_list_idempotent envReady envDown 30 30
    [("method", .str "tools/list"), ("id", .int 1)]
    [("method", .str "tools/list"), ("id", .int 2)] rfl rfl
  exact ⟨h.1, h.2.1, h.2.2.1⟩

/-! ## Claim C10 -/

/-- A registered tool name is one of the three. -/
theorem registered_name_cases (nm : String) (h : (tools.lookup nm).isSome = true) :
    nm = "execute_pwsh_script" ∨ nm = "get_clipboard" ∨ nm = "capture_pwsh_response" := by
  by_cases h1 : nm = "execute_pwsh_script"
  · exact Or.inl h1
  by_cases h2 : nm = "get_clipboard"
  · exact Or.inr (Or.inl h2)
  by_cases h3 : nm = "capture_pwsh_response"
  · exact Or.inr (Or.inr h3)
  exfalso
  have b1 : (nm == "execute_pwsh_script") = false := beq_eq_false_iff_ne.mpr h1
  have b2 : (nm == "get_clipboard") = false := beq_eq_false_iff_ne.mpr h2
  have b3 : (nm == "capture_pwsh_response") = false := beq_eq_false_iff_ne.mpr h3
  unfold tools at h
  simp [List.lookup, b1, b2, b3] at h

/-- `errCode` of `_create_error_response` is its code. -/
theorem errCode_create (rid : JVal) (c : Int) (m : String) :
    errCode (create_error_response rid c m) = some c := rfl

/-- Both `except` clauses of `_handle_tools_call` produce `-32603`. -/
theorem errCode_catch (rid : JVal) (e : PyExc) :
    errCode (catchToolExc rid e) = some (-32603) := by
  unfold catchToolExc
  split <;> rfl

/-- A wrapped tool outcome never carries error code `-32601`. -/
theorem errCode_wrap_ne (rid : JVal) (x : Except PyExc JObj × List Event) :
    errCode (wrapToolOutcome rid x).1 ≠ some (-32601) := by
  obtain ⟨(e | r), evs⟩ := x
  · rw [show (wrapToolOutcome rid (.error e, evs)).1 = catchToolExc rid e from rfl,
      errCode_catch]
    simp
  · simp [wrapToolOutcome, errCode, List.lookup]

/-- Inside the `try` block of a registered tool, no `-32601` can be
produced: the outcomes are validation errors (`-32602`), caught
exceptions (`-32603`) or wrapped successes. -/
theorem tools_call_try_no_32601 (env : Env) (dt : Int) (rid : JVal) (args : JVal)
    (nm : String) (h : (tools.lookup nm).isSome = true) :
    errCode (tools_call_try env dt rid nm args).1 ≠ some (-32601) := by
  rcases registered_name_cases nm h with rfl | rfl | rfl <;>
    · unfold tools_call_try
      split
      · rw [errCode_catch]
        simp
      · rw [errCode_create]
        simp
      · simp only [String.reduceBEq, Bool.false_eq_true, if_true, if_false, ite_true,
          ite_false, reduceIte]
        exact errCode_wrap_ne _ _

/-- A falsy tool name (missing, None, empty string, ...) is rejected
with `-32602` before any validation or tool dispatch. -/
theorem handle_tools_call_noname (env : Env) (dt : Int) (rid : JVal) (pfs : JObj)
    (ht : ((pfs.lookup "name").getD .null).truthy = false) :
    handle_tools_call env dt rid (.obj pfs) =
      .ok (create_error_response rid (-32602) "Tool name is required", []) := by
  unfold handle_tools_call
  simp [pyObjGetD, ht]

/-- A truthy but unregistered tool name is rejected with `-32601`. -/
theorem handle_tools_call_unknown (env : Env) (dt : Int) (rid : JVal) (pfs : JObj)
    (nm : String) (hn : pfs.lookup "name" = some (.str nm)) (hne : nm ≠ "")
    (hnreg : tools.lookup nm = none) :
    handle_tools_call env dt rid (.obj pfs) =
      .ok (create_error_response rid (-32601) ("Unknown tool: " ++ nm), []) := by
  unfold handle_tools_call
  simp [pyObjGetD, hn, JVal.truthy, hne, hnreg]

/-- A registered tool name reaches the `try` block with
`params.get("arguments", {})`. -/
theorem handle_tools_call_registered (env : Env) (dt : Int) (rid : JVal) (pfs : JObj)
    (nm : String) (hn : pfs.lookup "name" = some (.str nm)) (hne : nm ≠ "")
    (hreg : (tools.lookup nm).isSome = true) :
    handle_tools_call env dt rid (.obj pfs) =
      .ok (tools_call_try env dt rid nm ((pfs.lookup "arguments").getD (.obj []))) := by
  unfold handle_tools_call
  rcases hl : tools.lookup nm with _ | d
  · rw [hl] at hreg
    exact absurd hreg (by simp)
  · simp [pyObjGetD, hn, JVal.truthy, hne, hl]

/-- Claim C10: in a `tools/call` with dict params, a missing or empty
(more generally falsy) tool name yields `-32602` "Tool name is
required" with an empty event trace (no validation, no tool body); a
non-empty unregistered name yields `-32601`; and `-32601` is never
produced for a registered name. -/
theorem C10_tool_name_dispatch (env : Env) (dt : Int) (req : JObj) (pfs : JObj)
    (hm : (req.lookup "method").getD .null = .str "tools/call")
    (hp : (req.lookup "params").getD (.obj []) = .obj pfs) :
    (((pfs.lookup "name").getD .null).truthy = false →
      handle_request env dt req =
        (create_error_response ((req.lookup "id").getD (.int 1)) (-32602)
          "Tool name is required", [])) ∧
    (∀ nm, pfs.lookup "name" = some (.str nm) → nm ≠ "" →
      tools.lookup nm = none →
      handle_request env dt req =
        (create_error_response ((req.lookup "id").getD (.int 1)) (-32601)
          ("Unknown tool: " ++ nm), [])) ∧
    (∀ nm, pfs.lookup "name" = some (.str nm) → (tools.lookup nm).isSome = true →
      errCode (handle_request env dt req).1 ≠ some (-32601)) := by
  have hroute := handle_request_tools_call env dt req pfs hm hp
  refine ⟨?_, ?_, ?_⟩
  · intro ht
    rw [hroute, handle_tools_call_noname env dt _ pfs ht]
  · intro nm hn hne hnreg
    rw [hroute, handle_tools_call_unknown env dt _ pfs nm hn hne hnreg]
  · intro nm hn hreg
    have hne : nm ≠ "" := by
      intro hx
      rw [hx] at hreg
      simp [tools, List.lookup] at hreg
    rw [hroute, handle_tools_call_registered env dt _ pfs nm hn hne hreg]
    exact tools_call_try_no_32601 env dt _ _ nm hreg

/-- Witness for C10: a call without a name gets `-32602` "Tool name is
required" and an empty trace; a call naming the unregistered tool
`frob` gets `-32601`; a call naming the registered `get_clipboard`
cannot get `-32601`. -/
theorem C10_witness :
    handle_request envReady 30 [("method", .str "tools/call"), ("id", .int 8),
        ("params", .obj [])] =
      (create_error_response (.int 8) (-32602) "Tool name is required", []) ∧
    handle_request envReady 30 [("method", .str "tools/call"), ("id", .int 9),
        ("params", .obj [("name", .str "frob")])] =
      (create_error_response (.int 9) (-32601) "Unknown tool: frob", []) ∧
    errCode (handle_request envReady 30 [("method", .str "tools/call"), ("id", .int 10),
        ("params", .obj [("name", .str "get_clipboard")])]).1 ≠ some (-32601) := by
  have h1 := (C10_tool_name_dispatch envReady 30
    [("method", .str "tools/call"), ("id", .int 8), ("params", .obj [])] [] rfl rfl).1 rfl
  have h2 := ((C10_tool_name_dispatch envReady 30
    [("method", .str "tools/call"), ("id", .int 9),
      ("params", .obj [("name", .str "frob")])]
    [("name", .str "frob")] rfl rfl).2.1) "frob" rfl (by decide) rfl
  have h3 := ((C10_tool_name_dispatch envReady 30
    [("method", .str "tools/call"), ("id", .int 10),
      ("params", .obj [("name", .str "get_clipboard")])]
    [("name", .str "get_clipboard")] rfl rfl).2.2) "get_clipboard" rfl rfl
  exact ⟨h1, h2, h3⟩

end PwshMcp
